import Mathlib

/-!
Verification of the vibe-eyes capture collector against its specification.

The development shallowly embeds the two core source files:
* `src/vectorizer.js` — raster→vector conversion adapter (color rounding,
  optimizer fallback, statistics);
* `src/mcp.js` — the capture coordinator (the `debugCapture` socket handler),
  the raw retrieval endpoint, and the MCP query responder
  (`getGameDebugInfoWithLogsAndVisualization`).

External engines (the `@neplex/vectorizer` `vectorize` call, the svgo
`optimize` pass, `Buffer` base64 decoding, `Date#toISOString`,
`JSON.stringify`, and the wall clock read by `performance.now`) are passed in
as an explicit environment (`Ext`), mirroring their role as external
collaborators in the source.  JavaScript numbers are modelled as `ℚ` where
fractional values occur and as `Nat` for sizes, counters and millisecond
clock readings; fallible operations return `Except`/`Option`.
-/

namespace VibeEyes

/-! ### src/vectorizer.js -/

/-- Value of one hex digit character (`parseInt` base-16 digit semantics;
non-hex characters never reach this in the source because the regex only
matches `[0-9A-F]` case-insensitively). -/
def hexDigitValue (c : Char) : Nat :=
  if '0' ≤ c ∧ c ≤ '9' then c.toNat - '0'.toNat
  else if 'a' ≤ c ∧ c ≤ 'f' then c.toNat - 'a'.toNat + 10
  else if 'A' ≤ c ∧ c ≤ 'F' then c.toNat - 'A'.toNat + 10
  else 0

/-- `parseInt(hexPair, 16)` for the two-character strings the color regex
captures. -/
def hexPairValue (hexPair : String) : Nat :=
  match hexPair.data with
  | [c1, c2] => 16 * hexDigitValue c1 + hexDigitValue c2
  | _ => 0

/-- `roundHexComponent` from src/vectorizer.js lines 10–22: round a
two-character hex color channel to the nearest value representable in
3-digit shorthand (`00`, `33`, `66`, `99`, `CC`, `FF`). -/
def roundHexComponent (hexPair : String) : String :=
  let dec := hexPairValue hexPair
  if dec < 26 then "00"
  else if dec < 77 then "33"
  else if dec < 128 then "66"
  else if dec < 179 then "99"
  else if dec < 230 then "CC"
  else "FF"

/-- The six canonical channel levels named by the spec. -/
def canonicalLevels : List Nat := [0, 51, 102, 153, 204, 255]

/-- A character of the regex class `[0-9A-F]` with the `i` flag. -/
def isHexDigitChar (c : Char) : Bool :=
  (('0' ≤ c && c ≤ '9') || ('a' ≤ c && c ≤ 'f') || ('A' ≤ c && c ≤ 'F'))

/-- A JavaScript regex word character (`\w`), used to decide the `\b`
boundary after the six hex digits. -/
def isWordChar (c : Char) : Bool :=
  c.isAlphanum || c = '_'

/-- The `\b` boundary after a hex digit holds iff the next character is not a
word character (or the string ends). -/
def boundaryAfterDigits : List Char → Bool
  | [] => true
  | g :: _ => !(isWordChar g)

/-- Character-list core of `roundHexColors` (src/vectorizer.js lines 29–41):
scan for `#` followed by exactly six hex digits and a `\b` boundary, and
replace each captured channel pair with its rounded pair.  On a failed match
the scan resumes after the `#`, and after a replacement it resumes after the
matched text, as a global regex replace does. -/
def roundHexColorsAux : List Char → List Char
  | [] => []
  | '#' :: a :: b :: c :: d :: e :: f :: rest =>
    if (isHexDigitChar a && isHexDigitChar b && isHexDigitChar c &&
        isHexDigitChar d && isHexDigitChar e && isHexDigitChar f) &&
        boundaryAfterDigits rest then
      '#' :: ((roundHexComponent ⟨[a, b]⟩).data ++
              (roundHexComponent ⟨[c, d]⟩).data ++
              (roundHexComponent ⟨[e, f]⟩).data) ++ roundHexColorsAux rest
    else
      '#' :: roundHexColorsAux (a :: b :: c :: d :: e :: f :: rest)
  | x :: rest => x :: roundHexColorsAux rest

/-- `roundHexColors` from src/vectorizer.js: round every 6-digit hex color in
an SVG document so it becomes convertible to shorthand. -/
def roundHexColors (svg : String) : String :=
  ⟨roundHexColorsAux svg.data⟩

/-- The options record accepted by `vectorizeImage` (absent fields modelled
as `none`, consumed through `??` defaulting; `optimize`/`shortHex` model the
`options.optimize !== false` / `options.shortHex !== false` tests). -/
structure VectorizeImageOptions where
  filterSpeckle : Option ℚ := none
  colorPrecision : Option ℚ := none
  layerDifference : Option ℚ := none
  cornerThreshold : Option ℚ := none
  lengthThreshold : Option ℚ := none
  maxIterations : Option ℚ := none
  spliceThreshold : Option ℚ := none
  pathPrecision : Option ℚ := none
  optimize : Bool := true
  shortHex : Bool := true
deriving DecidableEq

/-- The config object handed to the external `vectorize` engine
(src/vectorizer.js lines 125–145); the three enum choices are recorded as
their tags. -/
structure VectorizeConfig where
  colorMode : String
  hierarchical : String
  mode : String
  filterSpeckle : ℚ
  colorPrecision : ℚ
  layerDifference : ℚ
  cornerThreshold : ℚ
  lengthThreshold : ℚ
  maxIterations : ℚ
  spliceThreshold : ℚ
  pathPrecision : ℚ
deriving DecidableEq

/-- Build the engine config exactly as `vectorizeImage` does, filling each
absent option with its default. -/
def mkConfig (options : VectorizeImageOptions) : VectorizeConfig :=
  { colorMode := "Color"
    hierarchical := "Stacked"
    mode := "Spline"
    filterSpeckle := options.filterSpeckle.getD 2
    colorPrecision := options.colorPrecision.getD 8
    layerDifference := options.layerDifference.getD 2
    cornerThreshold := options.cornerThreshold.getD 80
    lengthThreshold := options.lengthThreshold.getD 1
    maxIterations := options.maxIterations.getD 50
    spliceThreshold := options.spliceThreshold.getD 3
    pathPrecision := options.pathPrecision.getD 3 }

/-- The svgo configuration produced by `getSvgoConfig` (src/vectorizer.js
lines 48–115), recorded by its varying content: `multipass` and the ordered
plugin names, with the `convertColors` plugin appended only when short hex
colors are enabled.  The per-plugin numeric parameters are constants of the
external pass and are not consulted by the collector. -/
structure SvgoConfig where
  multipass : Bool
  pluginNames : List String
deriving DecidableEq

/-- `getSvgoConfig(shortHex)` from src/vectorizer.js. -/
def getSvgoConfig (shortHex : Bool) : SvgoConfig :=
  { multipass := true
    pluginNames :=
      ["preset-default", "removeXMLProcInst", "removeComments",
       "removeUselessStrokeAndFill"] ++
      (if shortHex then ["convertColors"] else []) }

/-- The `stats` record assembled by `vectorizeImage`. -/
structure ConvStats where
  vectorizeTime : ℚ
  optimizeTime : ℚ
  originalSize : Nat
  finalSize : Nat
  sizeReduction : ℚ
deriving DecidableEq

/-- The value of `vectorizeImage`: final SVG text plus statistics. -/
structure ConvResult where
  svg : String
  stats : ConvStats
deriving DecidableEq

/-- The external world of the collector: the raster→vector engine, the svgo
optimizer (both of which may throw, hence `Except`), Node `Buffer` base64
decoding, `Date#toISOString`, `JSON.stringify` rendering of the exception
object, and the durations observed via `performance.now`. -/
structure Ext where
  vectorize : List Nat → VectorizeConfig → Except String String
  optimize : String → SvgoConfig → Except String String
  base64Decode : String → List Nat
  iso : Nat → String
  jsonStringify : String → String
  vectorizeDuration : ℚ
  optimizeDuration : ℚ

/-- `vectorizeImage` from src/vectorizer.js lines 123–199.  A raw-engine
throw propagates (caught further up, in `processDataUrl`); an optimizer
throw falls back to the raw SVG with `optimizeTime` left at its initial 0,
because the source assigns `stats.optimizeTime` only after `optimize`
returns.  The final sizes and the reduction percentage are computed on every
path. -/
def vectorizeImage (ext : Ext) (inputBuffer : List Nat)
    (options : VectorizeImageOptions) : Except String ConvResult :=
  match ext.vectorize inputBuffer (mkConfig options) with
  | .error e => .error e
  | .ok svg =>
    let fin : String × ℚ :=
      if options.optimize then
        match ext.optimize (if options.shortHex then roundHexColors svg else svg)
            (getSvgoConfig options.shortHex) with
        | .ok d => (d, ext.optimizeDuration)
        | .error _ => (svg, 0)
      else (svg, 0)
    .ok { svg := fin.1
          stats := { vectorizeTime := ext.vectorizeDuration
                     optimizeTime := fin.2
                     originalSize := svg.length
                     finalSize := fin.1.length
                     sizeReduction :=
                       100 - ((fin.1.length : ℚ) / (svg.length : ℚ)) * 100 } }

/-! ### src/mcp.js — data model -/

/-- One console log / error entry `{timestamp, data}` as relayed by the
client; `data` holds the joined-ready loggable values. -/
structure LogEntry where
  timestamp : Nat
  data : List String
deriving DecidableEq

/-- The inbound `debugCapture` message.  Absent / `null` fields are `none`;
the coordinator additionally treats a `0` timestamp as falsy (`||`).  The
unhandled exception is carried opaquely (the coordinator only copies it and
later renders it with `JSON.stringify`). -/
structure CaptureMessage where
  timestamp : Option Nat := none
  image : Option String := none
  console_logs : Option (List LogEntry) := none
  console_errors : Option (List LogEntry) := none
  unhandled_exception : Option String := none
deriving DecidableEq

/-- The `vectorized` sub-record of a capture.  `svg` is optional because the
query responder executes `delete capture.vectorized.svg` on the retained
object. -/
structure Vectorized where
  svg : Option String
  imageType : String
  stats : ConvStats
deriving DecidableEq

/-- The coordinator-owned capture record (src/mcp.js lines 112–118 plus the
optional `vectorized` added on line 131). -/
structure Capture where
  id : String
  timestamp : Nat
  console_logs : List LogEntry
  console_errors : List LogEntry
  unhandled_exception : Option String
  vectorized : Option Vectorized
deriving DecidableEq

/-- Module-level mutable state of src/mcp.js: the single latest-capture slot
and the two MCP request counters. -/
structure ServerState where
  latestCapture : Option Capture
  mcpRequestCount : Nat
  mcpRequestWithoutSvgCount : Nat
deriving DecidableEq

/-- The acknowledgment object passed to the `debugCapture` callback.
Fields absent from the JavaScript object literal on a given path are `none`
(reading them yields `undefined`); in particular the success-path literal
(src/mcp.js lines 154–163) carries no `error` key. -/
structure Ack where
  success : Bool
  id : Option String
  processedAt : Option Nat
  svg : Option String
  stats : Option ConvStats
  mcpRequestCount : Option Nat
  mcpRequestWithoutSvgCount : Option Nat
  error : Option String
deriving DecidableEq

/-- One element of the MCP result's `content` array. -/
structure ContentItem where
  type : String
  text : String
deriving DecidableEq

/-- The MCP tool result: `success` plus the `content` array. -/
structure Bundle where
  success : Bool
  content : List ContentItem
deriving DecidableEq

/-! ### src/mcp.js — capture pipeline -/

/-- The result object of a successful `processDataUrl`. -/
structure ProcessedImage where
  imageType : String
  svg : String
  stats : ConvStats
deriving DecidableEq

/-- A character of the regex class `[a-zA-Z]`. -/
def asciiAlpha (c : Char) : Bool :=
  ('a' ≤ c && c ≤ 'z') || ('A' ≤ c && c ≤ 'Z')

/-- Strip a literal character sequence from the front of a list, the way a
regex matches a literal. -/
def stripLit : List Char → List Char → Option (List Char)
  | [], rest => some rest
  | _ :: _, [] => none
  | p :: ps, c :: cs => if c = p then stripLit ps cs else none

/-- The data-URL match of src/mcp.js line 52
(`^data:image\/([a-zA-Z]+);base64,(.+)$`): the literal head, a nonempty
greedy alphabetic image type, the literal `;base64,`, and a nonempty base64
payload.  `.` does not match a line break in a JavaScript regex, so a
payload containing one fails the match. -/
def parseDataUrl (dataUrl : String) : Option (String × String) :=
  match stripLit "data:image/".data dataUrl.data with
  | none => none
  | some rest =>
    let imageType := rest.takeWhile asciiAlpha
    let after := rest.dropWhile asciiAlpha
    if imageType.isEmpty then none
    else
      match stripLit ";base64,".data after with
      | none => none
      | some payload =>
        if payload.isEmpty then none
        else if payload.all fun c => c ≠ '\n' && c ≠ '\r' then
          some (⟨imageType⟩, ⟨payload⟩)
        else none

/-- `processDataUrl` from src/mcp.js lines 49–78: parse the data URL, decode
the base64 body, and vectorize with the low-latency debug options
(`filterSpeckle: 4`, `maxIterations: 30`).  Every throw inside is caught and
returned as `{error}`. -/
def processDataUrl (ext : Ext) (dataUrl : String) :
    Except String ProcessedImage :=
  match parseDataUrl dataUrl with
  | none => .error "Invalid data URL format"
  | some (imageType, base64Data) =>
    let imageBuffer := ext.base64Decode base64Data
    match vectorizeImage ext imageBuffer
        { filterSpeckle := some 4, maxIterations := some 30 } with
    | .error e => .error e
    | .ok result =>
      .ok { imageType := imageType, svg := result.svg, stats := result.stats }

/-- JavaScript `a || b` for an optional numeric field: missing, `null` and
`0` are all falsy. -/
def jsOrNat (a : Option Nat) (b : Nat) : Nat :=
  match a with
  | some t => if t = 0 then b else t
  | none => b

/-- The capture object literal of src/mcp.js lines 112–118, built before any
image processing.  `now` is the `Date.now()` reading at creation. -/
def mkCaptureBase (now : Nat) (msg : CaptureMessage) : Capture :=
  { id := "capture_" ++ Nat.repr now
    timestamp := jsOrNat msg.timestamp now
    console_logs := msg.console_logs.getD []
    console_errors := msg.console_errors.getD []
    unhandled_exception := msg.unhandled_exception
    vectorized := none }

/-- The capture record as it stands when the pipeline reaches publication:
the base record, with `vectorized` attached only when an image was supplied
and `processDataUrl` returned no error (src/mcp.js lines 121–143; a failure
is only written to the server console). -/
def processedCapture (ext : Ext) (now : Nat) (msg : CaptureMessage) :
    Capture :=
  let capture := mkCaptureBase now msg
  match msg.image with
  | none => capture
  | some dataUrl =>
    match processDataUrl ext dataUrl with
    | .ok imageResult =>
      { capture with
          vectorized := some { svg := some imageResult.svg
                               imageType := imageResult.imageType
                               stats := imageResult.stats } }
    | .error _ => capture

/-- The `debugCapture` socket handler (src/mcp.js lines 107–174): run the
pipeline, publish the record into the latest-capture slot, and only then
build the acknowledgment.  `now` is the clock at capture creation and
`ackTime` the (later) `Date.now()` placed in `processedAt`.  For a decoded
message the outer catch is unreachable, so the handler always acknowledges
with `success: true` and no `error` key. -/
def debugCapture (ext : Ext) (st : ServerState) (now ackTime : Nat)
    (msg : CaptureMessage) : ServerState × Ack :=
  let capture := processedCapture ext now msg
  ({ st with latestCapture := some capture },
   { success := true
     id := some capture.id
     processedAt := some ackTime
     svg := capture.vectorized.bind Vectorized.svg
     stats := capture.vectorized.map Vectorized.stats
     mcpRequestCount := some st.mcpRequestCount
     mcpRequestWithoutSvgCount := some st.mcpRequestWithoutSvgCount
     error := none })

/-! ### src/mcp.js — read endpoints -/

/-- The raw retrieval endpoint `GET /latest` (src/mcp.js lines 86–92): the
retained record verbatim, or a 404 error body.  It does not change state. -/
def getLatest (st : ServerState) : Except String Capture :=
  match st.latestCapture with
  | some c => .ok c
  | none => .error "No captures available yet"

/-- One formatted log line `[ISO time] joined message parts`
(src/mcp.js lines 240–249 and 257). -/
def formatLogLine (ext : Ext) (l : LogEntry) : String :=
  "[" ++ ext.iso l.timestamp ++ "] " ++ String.intercalate " " l.data

/-- The narrative template of src/mcp.js lines 253–262, built from the
capture's fields (it never reads `vectorized`). -/
def captureText (ext : Ext) (c : Capture) : String :=
  "\nGame State: " ++ c.id ++ " (" ++ ext.iso c.timestamp ++ ")\n\n" ++
  "Console Logs:\n" ++
  String.intercalate "\n" (c.console_logs.map (formatLogLine ext)) ++
  "\n\n" ++
  (if c.console_errors.length ≠ 0 then
    "Errors:\n" ++
    String.intercalate "\n" (c.console_errors.map (formatLogLine ext))
   else "No errors.") ++
  "\n" ++
  (match c.unhandled_exception with
   | some e => "\nUnhandled Exception:\n" ++ ext.jsonStringify e
   | none => "") ++
  "\n\n"

/-- Truthiness of `capture.vectorized?.svg`: a present, nonempty SVG string
(the empty string is falsy in JavaScript). -/
def truthySvg : Option Vectorized → Option String
  | some v =>
    match v.svg with
    | some s => if s = "" then none else some s
    | none => none
  | none => none

/-- The MCP tool `getGameDebugInfoWithLogsAndVisualization`
(src/mcp.js lines 212–289).  It increments the request counters, answers a
no-data bundle when the slot is empty, and otherwise formats the retained
capture.  When `includeSvg` is false and the capture has a `vectorized`
object, the source executes `delete capture.vectorized.svg` on the retained
object itself — the new state keeps that mutated record.  When the
(possibly mutated) record still has a truthy SVG and `includeSvg` is true,
the SVG is appended to the narrative as a fenced code block. -/
def getGameDebugInfoWithLogsAndVisualization (ext : Ext) (includeSvg : Bool)
    (st : ServerState) : ServerState × Bundle :=
  let mcpRequestCount := st.mcpRequestCount + 1
  let mcpRequestWithoutSvgCount :=
    if includeSvg then st.mcpRequestWithoutSvgCount
    else st.mcpRequestWithoutSvgCount + 1
  match st.latestCapture with
  | none =>
    ({ latestCapture := none
       mcpRequestCount := mcpRequestCount
       mcpRequestWithoutSvgCount := mcpRequestWithoutSvgCount },
     { success := false
       content := [{ type := "text", text := "No game data available yet." }] })
  | some capture0 =>
    let capture :=
      if !includeSvg && capture0.vectorized.isSome then
        { capture0 with
            vectorized := capture0.vectorized.map fun v => { v with svg := none } }
      else capture0
    let textContent := captureText ext capture
    let text :=
      match truthySvg capture.vectorized, includeSvg with
      | some s, true =>
        textContent ++ "\nSVG Approximation:\n```svg\n" ++ s ++ "\n```"
      | _, _ => textContent
    ({ latestCapture := some capture
       mcpRequestCount := mcpRequestCount
       mcpRequestWithoutSvgCount := mcpRequestWithoutSvgCount },
     { success := true, content := [{ type := "text", text := text }] })

/-! ### Event-loop interleaving model of the `debugCapture` handler

The handler registered on src/mcp.js line 107 is an `async` function with no
lock, queue, or other mutual-exclusion construct.  Its execution for one
submission therefore decomposes into exactly two atomic event-loop segments,
read off the source's `await` structure: everything up to the engine call
(`await processDataUrl` → `await vectorizeImage` → `await vectorize`), and
everything after the engine resolves (optimization, publication, callback).
Node's event loop runs each segment atomically and in program order per
submission, starting no earlier than the message's arrival, but imposes no
ordering across different submissions' segments — the source takes no lock. -/

/-- Events of the coordinator's event loop: a message arrives; its handler
runs to the engine `await` (creating the record, parsing the data URL and
invoking the conversion engine); its handler resumes after the engine
resolves (optimizing, publishing and acknowledging). -/
inductive CaptureEvent
  | arrive (s : Nat)
  | runToAwait (s : Nat)
  | resumeAfterAwait (s : Nat)
deriving DecidableEq

/-- Position of an event in a trace. -/
def eventIndex (tr : List CaptureEvent) (e : CaptureEvent) : Option Nat :=
  tr.findIdx? (· = e)

/-- `a` occurs in `tr`, strictly before `b`. -/
def eventBefore (tr : List CaptureEvent) (a b : CaptureEvent) : Bool :=
  match eventIndex tr a, eventIndex tr b with
  | some i, some j => i < j
  | _, _ => false

/-- A trace the Node event loop can produce for the handler as written:
events are distinct, each handler segment runs after the submission's
arrival, and the post-`await` segment runs after the pre-`await` one.
No cross-submission constraint exists, because the source has no lock. -/
def eventLoopTrace (tr : List CaptureEvent) : Bool :=
  decide tr.Nodup &&
  tr.all fun e =>
    match e with
    | .arrive _ => true
    | .runToAwait s => eventBefore tr (.arrive s) (.runToAwait s)
    | .resumeAfterAwait s => eventBefore tr (.runToAwait s) (.resumeAfterAwait s)

/-- The conversion engine is invoked for submission `b` while submission
`a`'s invocation is still outstanding. -/
def conversionsOverlap (tr : List CaptureEvent) (a b : Nat) : Bool :=
  eventBefore tr (.runToAwait a) (.runToAwait b) &&
  eventBefore tr (.runToAwait b) (.resumeAfterAwait a)

/-- A concrete schedule with two producers: both messages arrive, the first
handler runs to its engine `await`, then the second handler runs to its
engine `await` while the first conversion is still outstanding. -/
def overlapSchedule : List CaptureEvent :=
  [.arrive 0, .arrive 1, .runToAwait 0, .runToAwait 1,
   .resumeAfterAwait 0, .resumeAfterAwait 1]

/-! ### Decimal renderings of clock readings

The capture id is the string `capture_` followed by the decimal rendering of
the creation-time clock reading (`Date.now()`); these lemmas recover the
reading from the id, showing the id embeds the creation time and that ids
taken at distinct clock readings differ. -/

/-- Value of a decimal digit character. -/
def decDigitVal (c : Char) : Nat := c.toNat - '0'.toNat

/-- Decimal value of a digit string (most significant first). -/
def decVal (l : List Char) : Nat :=
  l.foldl (fun a c => 10 * a + decDigitVal c) 0

theorem toDigitsCore_append (fuel n : Nat) (ds : List Char) :
    Nat.toDigitsCore 10 fuel n ds = Nat.toDigitsCore 10 fuel n [] ++ ds := by
  induction fuel generalizing n ds with
  | zero => simp [Nat.toDigitsCore]
  | succ fuel ih =>
    simp only [Nat.toDigitsCore]
    by_cases h : n / 10 = 0
    · simp [h]
    · simp only [h, if_false]
      rw [ih (n / 10) (Nat.digitChar (n % 10) :: ds),
        ih (n / 10) [Nat.digitChar (n % 10)]]
      simp

theorem decDigitVal_digitChar :
    ∀ d : Fin 10, decDigitVal (Nat.digitChar d) = d := by decide

theorem decVal_toDigitsCore (fuel n : Nat) (h : n < fuel) :
    decVal (Nat.toDigitsCore 10 fuel n []) = n := by
  induction fuel generalizing n with
  | zero => omega
  | succ fuel ih =>
    simp only [Nat.toDigitsCore]
    by_cases h0 : n / 10 = 0
    · have hn : n < 10 := by omega
      have := decDigitVal_digitChar ⟨n % 10, Nat.mod_lt n (by omega)⟩
      simp only [h0, if_true, decVal, List.foldl]
      simpa [Nat.mod_eq_of_lt hn] using this
    · have hng : 10 ≤ n := by
        by_contra hlt
        exact h0 (Nat.div_eq_of_lt (by omega))
      have hdiv : n / 10 < fuel := by
        have := Nat.div_lt_self (by omega : 0 < n) (by omega : 1 < 10)
        omega
      have hmod := decDigitVal_digitChar ⟨n % 10, Nat.mod_lt n (by omega)⟩
      simp only [h0, if_false]
      rw [toDigitsCore_append]
      simp only [decVal, List.foldl_append, List.foldl] at *
      rw [ih (n / 10) hdiv, hmod]
      omega

theorem decVal_repr (n : Nat) : decVal (Nat.repr n).data = n := by
  have : (Nat.repr n).data = Nat.toDigitsCore 10 (n + 1) n [] := rfl
  rw [this]
  exact decVal_toDigitsCore (n + 1) n (Nat.lt_succ_self n)

theorem repr_injective {m n : Nat} (h : Nat.repr m = Nat.repr n) : m = n := by
  have := congrArg (fun s => decVal s.data) h
  simpa [decVal_repr] using this

theorem captureId_injective {m n : Nat}
    (h : "capture_" ++ Nat.repr m = "capture_" ++ Nat.repr n) : m = n := by
  apply repr_injective
  have hd := congrArg String.data h
  simp only [String.data_append] at hd
  have := List.append_cancel_left hd
  cases hm : Nat.repr m
  cases hn : Nat.repr n
  simp_all [String.ext_iff]

/-! ### Helper lemmas and concrete instances -/

theorem processedCapture_eq (ext : Ext) (now : Nat) (msg : CaptureMessage) :
    processedCapture ext now msg =
      { mkCaptureBase now msg with
          vectorized := (processedCapture ext now msg).vectorized } := by
  cases hmsg : msg.image with
  | none => simp [processedCapture, hmsg]
  | some dataUrl =>
    cases hp : processDataUrl ext dataUrl <;>
      simp [processedCapture, hmsg, hp]

theorem processedCapture_id (ext : Ext) (now : Nat) (msg : CaptureMessage) :
    (processedCapture ext now msg).id = "capture_" ++ Nat.repr now := by
  rw [processedCapture_eq]
  rfl

theorem processedCapture_timestamp (ext : Ext) (now : Nat)
    (msg : CaptureMessage) :
    (processedCapture ext now msg).timestamp = jsOrNat msg.timestamp now := by
  rw [processedCapture_eq]
  rfl

theorem processedCapture_console_logs (ext : Ext) (now : Nat)
    (msg : CaptureMessage) :
    (processedCapture ext now msg).console_logs = msg.console_logs.getD [] := by
  rw [processedCapture_eq]
  rfl

theorem processedCapture_console_errors (ext : Ext) (now : Nat)
    (msg : CaptureMessage) :
    (processedCapture ext now msg).console_errors =
      msg.console_errors.getD [] := by
  rw [processedCapture_eq]
  rfl

theorem processedCapture_exception (ext : Ext) (now : Nat)
    (msg : CaptureMessage) :
    (processedCapture ext now msg).unhandled_exception =
      msg.unhandled_exception := by
  rw [processedCapture_eq]
  rfl

/-- A concrete external environment used to evaluate the embedding: the
engine accepts everything and emits a fixed document, the optimizer is the
identity, and clock-derived quantities are constant. -/
def extDemo : Ext :=
  { vectorize := fun _ _ => .ok "<svg/>"
    optimize := fun s _ => .ok s
    base64Decode := fun _ => []
    iso := fun _ => "1970-01-01T00:00:01.000Z"
    jsonStringify := fun s => s
    vectorizeDuration := 0
    optimizeDuration := 0 }

/-- A concrete external environment whose optimizer always throws. -/
def extOptFail : Ext :=
  { vectorize := fun _ _ => .ok "<svg/>"
    optimize := fun _ _ => .error "optimizer exploded"
    base64Decode := fun _ => []
    iso := fun _ => "1970-01-01T00:00:01.000Z"
    jsonStringify := fun s => s
    vectorizeDuration := 0
    optimizeDuration := 0 }

/-- Conversion statistics of a concrete published record. -/
def statsDemo : ConvStats :=
  { vectorizeTime := 0, optimizeTime := 0, originalSize := 6, finalSize := 6
    sizeReduction := 0 }

/-- A concrete published capture record carrying a vector document. -/
def recDemo : Capture :=
  { id := "capture_1000"
    timestamp := 1000
    console_logs := [{ timestamp := 999, data := ["hello"] }]
    console_errors := []
    unhandled_exception := none
    vectorized := some { svg := some "<svg/>", imageType := "png"
                         stats := statsDemo } }

/-- Server state holding `recDemo` as the published record. -/
def stDemo : ServerState :=
  { latestCapture := some recDemo, mcpRequestCount := 0
    mcpRequestWithoutSvgCount := 0 }

/-- The empty initial server state. -/
def stEmpty : ServerState :=
  { latestCapture := none, mcpRequestCount := 0
    mcpRequestWithoutSvgCount := 0 }

/-- A capture message whose image payload is not a well-formed data URL. -/
def msgBadImage : CaptureMessage :=
  { timestamp := some 5
    image := some "notadataurl"
    console_logs := some [{ timestamp := 999, data := ["hello"] }]
    console_errors := some []
    unhandled_exception := some "boom" }

/-- A first image-free capture message. -/
def msgA : CaptureMessage :=
  { console_logs := some [{ timestamp := 999, data := ["hello"] }] }

/-- A second, different image-free capture message. -/
def msgB : CaptureMessage :=
  { console_logs := some [{ timestamp := 1000, data := ["world"] }] }

/-! ### Claims about the conversion adapter -/

/-- C6: if the size-optimization pass throws, the conversion still succeeds
and returns the unoptimized vector document produced by the raw conversion —
for every input on which raw vectorization succeeds, an optimizer exception
never fails the overall conversion, never loses the raw result, and is not
surfaced as an error to the caller. -/
theorem optimizer_failure_nonfatal (ext : Ext) (buf : List Nat)
    (opts : VectorizeImageOptions) (svg e : String)
    (hvec : ext.vectorize buf (mkConfig opts) = .ok svg)
    (hopt : ext.optimize (if opts.shortHex then roundHexColors svg else svg)
              (getSvgoConfig opts.shortHex) = .error e) :
    ∃ r, vectorizeImage ext buf opts = .ok r ∧ r.svg = svg := by
  unfold vectorizeImage
  rw [hvec]
  cases hb : opts.optimize
  · exact ⟨_, rfl, rfl⟩
  · simp only [hopt]
    exact ⟨_, rfl, rfl⟩

/-- Witness for C6 at a concrete input: a one-document engine and an
optimizer that always throws. -/
theorem optimizer_failure_nonfatal_witness :
    ∃ r, vectorizeImage extOptFail [] {} = .ok r ∧ r.svg = "<svg/>" :=
  optimizer_failure_nonfatal extOptFail [] {} "<svg/>" "optimizer exploded"
    rfl rfl

/-- C7: the reported size-reduction statistic of every conversion result
equals `100 * (1 - finalSize / originalSize)` exactly (in exact rational
arithmetic, hence within floating-point tolerance), on every path through
the adapter. -/
theorem sizeReduction_formula (ext : Ext) (buf : List Nat)
    (opts : VectorizeImageOptions) (r : ConvResult)
    (h : vectorizeImage ext buf opts = .ok r) :
    r.stats.sizeReduction =
      100 * (1 - (r.stats.finalSize : ℚ) / (r.stats.originalSize : ℚ)) := by
  unfold vectorizeImage at h
  cases hv : ext.vectorize buf (mkConfig opts) with
  | error e => rw [hv] at h; exact absurd h (by simp)
  | ok svg =>
    rw [hv] at h
    simp only [Except.ok.injEq] at h
    subst h
    dsimp only
    ring

/-- The conversion result the demo environment produces on the default
options, written with its statistics unevaluated. -/
def convDemo : ConvResult :=
  { svg := roundHexColors "<svg/>"
    stats := { vectorizeTime := 0
               optimizeTime := 0
               originalSize := "<svg/>".length
               finalSize := (roundHexColors "<svg/>").length
               sizeReduction :=
                 100 - (((roundHexColors "<svg/>").length : ℚ) /
                   (("<svg/>".length : Nat) : ℚ)) * 100 } }

/-- Witness for C7 at a concrete input. -/
theorem sizeReduction_formula_witness :
    convDemo.stats.sizeReduction =
      100 * ((1 : ℚ) - (convDemo.stats.finalSize : ℚ) /
        (convDemo.stats.originalSize : ℚ)) :=
  sizeReduction_formula extDemo [] {} convDemo rfl

/-- The sixteen upper-case hexadecimal digit characters. -/
def hexDigits : List Char :=
  ['0', '1', '2', '3', '4', '5', '6', '7', '8', '9', 'A', 'B', 'C', 'D',
   'E', 'F']

/-- The canonical two-digit upper-case hex rendering of a channel value in
0..255 (the shape of every pair the color regex captures, up to case). -/
def toHexPair (n : Nat) : String :=
  ⟨[hexDigits.getD (n / 16) '0', hexDigits.getD (n % 16) '0']⟩

set_option maxRecDepth 4000 in
/-- C8: the color quantization of the minification pre-pass maps every
channel value in 0..255 to the member of `{0, 51, 102, 153, 204, 255}`
closest to it — no other level is as close — and the rounded channel is a
doubled hex digit, hence expressible in 3-digit shorthand. -/
theorem roundHexComponent_nearest_level :
    ∀ v : Fin 256,
      hexPairValue (roundHexComponent (toHexPair v)) ∈ canonicalLevels ∧
      (∀ l ∈ canonicalLevels,
        Int.natAbs ((hexPairValue (roundHexComponent (toHexPair v)) : ℤ) - v)
          ≤ Int.natAbs ((l : ℤ) - (v : ℤ))) ∧
      (∀ l ∈ canonicalLevels,
        l ≠ hexPairValue (roundHexComponent (toHexPair v)) →
        Int.natAbs ((hexPairValue (roundHexComponent (toHexPair v)) : ℤ) - v)
          < Int.natAbs ((l : ℤ) - (v : ℤ))) ∧
      (roundHexComponent (toHexPair v)).data.getD 0 'x' =
        (roundHexComponent (toHexPair v)).data.getD 1 'y' := by
  decide

/-! ### Claims about the capture coordinator -/

/-- C1 (code-bug evidence): the `debugCapture` handler takes no lock, so the
event loop admits a schedule in which a second submission arrives before the
first pipeline completes and the conversion engine is invoked for the second
while the first invocation is still outstanding — refuting the claimed
single-flight discipline of the coordinator itself. -/
theorem conversion_overlap_schedule_valid :
    eventLoopTrace overlapSchedule = true ∧
    eventBefore overlapSchedule (.arrive 1) (.resumeAfterAwait 0) = true ∧
    conversionsOverlap overlapSchedule 0 1 = true := by decide

/-- C5: whenever the submitter's callback receives its (always successful)
acknowledgment, the latest-capture slot already holds the record whose id
and processed data the acknowledgment reports — publication happens in the
returned state, never after the acknowledgment. -/
theorem ack_only_after_publication (ext : Ext) (st : ServerState)
    (now ackTime : Nat) (msg : CaptureMessage) :
    (debugCapture ext st now ackTime msg).2.success = true ∧
    ∃ rec, (debugCapture ext st now ackTime msg).1.latestCapture = some rec ∧
      (debugCapture ext st now ackTime msg).2.id = some rec.id ∧
      (debugCapture ext st now ackTime msg).2.svg =
        rec.vectorized.bind Vectorized.svg ∧
      (debugCapture ext st now ackTime msg).2.stats =
        rec.vectorized.map Vectorized.stats :=
  ⟨rfl, processedCapture ext now msg, rfl, rfl, rfl, rfl⟩

/-- C10: the coordinator treats every falsy message field as absent — a
missing or zero timestamp is replaced by the processing-time clock, missing
log and error sequences become empty sequences, and a missing unhandled
exception is published as an explicit null. -/
theorem falsy_message_fields_defaulted (ext : Ext) (st : ServerState)
    (now ackTime : Nat) (msg : CaptureMessage) :
    ((debugCapture ext st now ackTime
        { msg with timestamp := none }).1.latestCapture.map
      Capture.timestamp = some now) ∧
    ((debugCapture ext st now ackTime
        { msg with timestamp := some 0 }).1.latestCapture.map
      Capture.timestamp = some now) ∧
    ((debugCapture ext st now ackTime
        { msg with console_logs := none }).1.latestCapture.map
      Capture.console_logs = some []) ∧
    ((debugCapture ext st now ackTime
        { msg with console_errors := none }).1.latestCapture.map
      Capture.console_errors = some []) ∧
    ((debugCapture ext st now ackTime
        { msg with unhandled_exception := none }).1.latestCapture.map
      Capture.unhandled_exception = some none) := by
  refine ⟨?_, ?_, ?_, ?_, ?_⟩ <;>
    simp [debugCapture, processedCapture_timestamp, processedCapture_console_logs,
      processedCapture_console_errors, processedCapture_exception, jsOrNat]

/-- C4 (counterexample): for a submission whose image payload cannot be
decoded, the acknowledgment object carries no embedded processing error —
its `error` field is absent and its `svg`/`stats` are null — contradicting
the claim that the image failure is reported inside the acknowledgment. -/
theorem bad_image_ack_has_no_embedded_error :
    (debugCapture extDemo stEmpty 1000 2000 msgBadImage).2.success = true ∧
    (debugCapture extDemo stEmpty 1000 2000 msgBadImage).2.error = none ∧
    (debugCapture extDemo stEmpty 1000 2000 msgBadImage).2.svg = none := by
  decide

/-- C4 (amended): a submission with an undecodable or unconvertible image is
still published with its logs, errors and exception copied intact and
`vectorized` absent, and the acknowledgment reports success with null
`svg`/`stats` but contains no embedded error — the failure is only logged
server-side. -/
theorem bad_image_graceful_degradation (ext : Ext) (st : ServerState)
    (now ackTime : Nat) (msg : CaptureMessage) (dataUrl e : String)
    (himg : msg.image = some dataUrl)
    (herr : processDataUrl ext dataUrl = .error e) :
    (debugCapture ext st now ackTime msg).1.latestCapture =
      some (mkCaptureBase now msg) ∧
    (debugCapture ext st now ackTime msg).2 =
      { success := true
        id := some ("capture_" ++ Nat.repr now)
        processedAt := some ackTime
        svg := none
        stats := none
        mcpRequestCount := some st.mcpRequestCount
        mcpRequestWithoutSvgCount := some st.mcpRequestWithoutSvgCount
        error := none } := by
  have hcap : processedCapture ext now msg = mkCaptureBase now msg := by
    unfold processedCapture
    simp only [himg, herr]
  exact ⟨by simp [debugCapture, hcap], by simp [debugCapture, hcap, mkCaptureBase]⟩

/-- Witness for C4's amended claim at a concrete undecodable payload. -/
theorem bad_image_graceful_degradation_witness :
    (debugCapture extDemo stEmpty 1000 2000 msgBadImage).1.latestCapture =
      some (mkCaptureBase 1000 msgBadImage) ∧
    (debugCapture extDemo stEmpty 1000 2000 msgBadImage).2 =
      { success := true
        id := some ("capture_" ++ Nat.repr 1000)
        processedAt := some 2000
        svg := none
        stats := none
        mcpRequestCount := some stEmpty.mcpRequestCount
        mcpRequestWithoutSvgCount := some stEmpty.mcpRequestWithoutSvgCount
        error := none } :=
  bad_image_graceful_degradation extDemo stEmpty 1000 2000 msgBadImage
    "notadataurl" "Invalid data URL format" rfl rfl

/-- C9 (counterexample): two distinct captures processed within the same
clock millisecond receive the same id — capture ids are not unique per
capture. -/
theorem same_millisecond_id_collision :
    ((debugCapture extDemo stEmpty 1000 1000 msgA).1.latestCapture.map
        Capture.id = some "capture_1000") ∧
    ((debugCapture extDemo (debugCapture extDemo stEmpty 1000 1000 msgA).1
        1000 1001 msgB).1.latestCapture.map Capture.id =
      some "capture_1000") ∧
    (debugCapture extDemo stEmpty 1000 1000 msgA).1.latestCapture ≠
      (debugCapture extDemo (debugCapture extDemo stEmpty 1000 1000 msgA).1
        1000 1001 msgB).1.latestCapture ∧
    (debugCapture extDemo stEmpty 1000 1000 msgA).1.latestCapture ≠ none := by
  decide

/-- C9 (amended): each capture id embeds the record's creation time, and ids
of captures created at distinct clock milliseconds differ; uniqueness holds
only across distinct clock readings. -/
theorem capture_id_embeds_creation_time (ext1 ext2 : Ext)
    (st1 st2 : ServerState) (now1 ackT1 now2 ackT2 : Nat)
    (msg1 msg2 : CaptureMessage) (hne : now1 ≠ now2) :
    (debugCapture ext1 st1 now1 ackT1 msg1).1.latestCapture.map Capture.id =
      some ("capture_" ++ Nat.repr now1) ∧
    (debugCapture ext1 st1 now1 ackT1 msg1).1.latestCapture.map Capture.id ≠
      (debugCapture ext2 st2 now2 ackT2 msg2).1.latestCapture.map
        Capture.id := by
  have h1 : ∀ (ext : Ext) (st : ServerState) (now ackT : Nat)
      (msg : CaptureMessage),
      (debugCapture ext st now ackT msg).1.latestCapture.map Capture.id =
        some ("capture_" ++ Nat.repr now) := by
    intro ext st now ackT msg
    simp [debugCapture, processedCapture_id]
  refine ⟨h1 ext1 st1 now1 ackT1 msg1, ?_⟩
  rw [h1, h1]
  intro hEq
  simp only [Option.some.injEq] at hEq
  exact hne (captureId_injective hEq)

/-- Witness for C9's amended claim at distinct concrete clock readings. -/
theorem capture_id_embeds_creation_time_witness :
    (debugCapture extDemo stEmpty 1000 1000 msgA).1.latestCapture.map
        Capture.id = some ("capture_" ++ Nat.repr 1000) ∧
    (debugCapture extDemo stEmpty 1000 1000 msgA).1.latestCapture.map
        Capture.id ≠
      (debugCapture extDemo stDemo 1001 1002 msgB).1.latestCapture.map
        Capture.id :=
  capture_id_embeds_creation_time extDemo extDemo stEmpty stDemo
    1000 1000 1001 1002 msgA msgB (by decide)

/-! ### Claims about the query responder -/

/-- C2 (code-bug evidence): one read with visualization disabled mutates the
retained record in place — `delete capture.vectorized.svg` erases the vector
document from the published record itself, so the record differs before and
after the read. -/
theorem query_responder_mutates_retained_record :
    ((getGameDebugInfoWithLogsAndVisualization extDemo false
        stDemo).1.latestCapture.map
      (fun c => c.vectorized.map Vectorized.svg) = some (some none)) ∧
    stDemo.latestCapture.map (fun c => c.vectorized.map Vectorized.svg) =
      some (some (some "<svg/>")) ∧
    (getGameDebugInfoWithLogsAndVisualization extDemo false
        stDemo).1.latestCapture ≠ stDemo.latestCapture := by
  decide

/-- C3 (counterexample): on a published record carrying a vector document,
the responder's bundle with visualization enabled consists of a single text
content item — the document is embedded in the narrative only, and no
separate structured payload exists. -/
theorem query_responder_single_content_item :
    (getGameDebugInfoWithLogsAndVisualization extDemo true stDemo).2.content.map
        ContentItem.type = ["text"] ∧
    ¬ 2 ≤ (getGameDebugInfoWithLogsAndVisualization extDemo true
        stDemo).2.content.length := by
  decide

/-- C3 (amended): with visualization enabled, the vector document is
appended verbatim to the narrative as an embedded code block, the narrative
being the bundle's sole content item; with visualization disabled, the
bundle is identical to the one produced from a record with no vector
document at all — it carries no vector payload anywhere. -/
theorem visualization_flag_behavior (ext : Ext) (st : ServerState)
    (rec : Capture) (v : Vectorized) (s : String)
    (hst : st.latestCapture = some rec) (hv : rec.vectorized = some v)
    (hs : v.svg = some s) (hne : s ≠ "") :
    (getGameDebugInfoWithLogsAndVisualization ext true st).2.content =
      [{ type := "text"
         text := captureText ext rec ++ "\nSVG Approximation:\n```svg\n" ++
           s ++ "\n```" }] ∧
    (getGameDebugInfoWithLogsAndVisualization ext false st).2 =
      (getGameDebugInfoWithLogsAndVisualization ext false
        { st with latestCapture := some ({ rec with vectorized := none }) }).2 := by
  constructor
  · simp [getGameDebugInfoWithLogsAndVisualization, hst, truthySvg, hv, hs, hne]
  · simp [getGameDebugInfoWithLogsAndVisualization, hst, truthySvg, hv,
      captureText]

/-- Witness for C3's amended claim at a concrete published record. -/
theorem visualization_flag_behavior_witness :
    (getGameDebugInfoWithLogsAndVisualization extDemo true stDemo).2.content =
      [{ type := "text"
         text := captureText extDemo recDemo ++
           "\nSVG Approximation:\n```svg\n" ++ "<svg/>" ++ "\n```" }] ∧
    (getGameDebugInfoWithLogsAndVisualization extDemo false stDemo).2 =
      (getGameDebugInfoWithLogsAndVisualization extDemo false
        { stDemo with latestCapture := some ({ recDemo with vectorized := none }) }).2 :=
  visualization_flag_behavior extDemo stDemo recDemo
    { svg := some "<svg/>", imageType := "png", stats := statsDemo }
    "<svg/>" rfl rfl rfl (by decide)

/-- Witness for C5 at a concrete submission. -/
theorem ack_only_after_publication_witness :
    (debugCapture extDemo stEmpty 1000 2000 msgA).2.success = true ∧
    ∃ rec, (debugCapture extDemo stEmpty 1000 2000 msgA).1.latestCapture =
        some rec ∧
      (debugCapture extDemo stEmpty 1000 2000 msgA).2.id = some rec.id ∧
      (debugCapture extDemo stEmpty 1000 2000 msgA).2.svg =
        rec.vectorized.bind Vectorized.svg ∧
      (debugCapture extDemo stEmpty 1000 2000 msgA).2.stats =
        rec.vectorized.map Vectorized.stats :=
  ack_only_after_publication extDemo stEmpty 1000 2000 msgA

/-- Witness for C8 at the concrete channel value 100 against the level
102. -/
theorem roundHexComponent_nearest_level_witness :
    hexPairValue (roundHexComponent (toHexPair (100 : Fin 256))) ∈
      canonicalLevels ∧
    Int.natAbs ((hexPairValue (roundHexComponent (toHexPair (100 : Fin 256)))
        : ℤ) - ((100 : Fin 256) : ℤ)) ≤
      Int.natAbs ((((102 : Nat)) : ℤ) - ((100 : Fin 256) : ℤ)) :=
  ⟨(roundHexComponent_nearest_level 100).1,
   (roundHexComponent_nearest_level 100).2.1 102 (by decide)⟩

/-- Witness for C10 at a concrete submission. -/
theorem falsy_message_fields_defaulted_witness :
    ((debugCapture extDemo stEmpty 1000 2000
        { msgA with timestamp := none }).1.latestCapture.map
      Capture.timestamp = some 1000) ∧
    ((debugCapture extDemo stEmpty 1000 2000
        { msgA with timestamp := some 0 }).1.latestCapture.map
      Capture.timestamp = some 1000) ∧
    ((debugCapture extDemo stEmpty 1000 2000
        { msgA with console_logs := none }).1.latestCapture.map
      Capture.console_logs = some []) ∧
    ((debugCapture extDemo stEmpty 1000 2000
        { msgA with console_errors := none }).1.latestCapture.map
      Capture.console_errors = some []) ∧
    ((debugCapture extDemo stEmpty 1000 2000
        { msgA with unhandled_exception := none }).1.latestCapture.map
      Capture.unhandled_exception = some none) :=
  falsy_message_fields_defaulted extDemo stEmpty 1000 2000 msgA

end VibeEyes
